import Mathlib

/-!
Shallow embedding of the NDVI field-analysis server
(`src/unnamed/part_000`, whose bbox / grid / synthetic-series code is
duplicated in `src/tranka/server.js`), together with proofs about its
analytics core: bounding-box computation, 100x100 -> 3x3 raster
aggregation, health classification, grid construction, stress-zone
detection, linear forecasting, synthetic fallback generation and the
request orchestrator.

Modelling conventions:
* JavaScript numbers are modelled as elements of a linear ordered field
  (instantiated at `Rat` for concrete evaluation); the server's
  arithmetic contains no float-specific behaviour relevant to the
  claims, with one audited exception: `Math.floor(i * (100/3))` agrees
  with natural-number division `i * 100 / 3` for every `i` in `0..3`,
  which is the whole range the aggregator uses.
* `Math.sin` is modelled as an injected function `sinf` (the server's
  sine is only ever relevant through the bound `|sin x| <= 1`).
* `Math.random` is modelled as an injected draw sequence `rnd : Nat -> α`
  with `0 <= rnd k < 1`, one draw per loop iteration, as the spec's
  design notes prescribe for reproducibility.
* A raster cell holding NaN (the no-data marker, including every value
  outside `[-1, 1]`, mapped to NaN while the GeoTIFF payload is decoded)
  is modelled as `none`; valid pixels are `some v`.
* The HTTP layer is represented by the outcome data the handler branches
  on: whether `getAccessToken()` succeeded, and what the Process API
  call produced (`connError` for a thrown fetch, `nonOk` for a non-2xx
  response, `payload m` for a decoded raster).
-/

namespace NdviServer

/-- The five health buckets shared by the per-cell ladder
(`part_000:106-111`) and the overall-summary ladder (`part_000:371-376`);
the two sites differ only in the grammatical form of the Russian label. -/
inductive HealthClass where
  | excellent
  | good
  | moderate
  | poor
  | critical
  deriving DecidableEq

/-- Provenance tag of an `AnalysisResult` (`part_000:410`):
`real` stands for the string `'Sentinel-2 L2A (реальные данные, Process API)'`,
`synthetic` for `'Тестовые данные (имитация)'`. -/
inductive DataSource where
  | real
  | synthetic
  deriving DecidableEq

/-- The two error responses of `POST /api/analyze`:
`badRequest` is the 400 of `part_000:176-178`, `internalError` the 500 of
the outer catch at `part_000:414-417`. -/
inductive AnalyzeError where
  | badRequest
  | internalError
  deriving DecidableEq

section Field

variable {α : Type*} [LinearOrderedField α]

/-- `Math.min(0.9, Math.max(0.1, v))`, the clamp used by the forecast
(`part_000:167`) and the mean-anchored series (`part_000:324`). -/
def clampNdvi (v : α) : α := min (9 / 10) (max (1 / 10) v)

/-- Per-cell health ladder, `part_000:106-111`. -/
def cellHealth (ndvi : α) : HealthClass :=
  if ndvi ≥ 7 / 10 then .excellent
  else if ndvi ≥ 55 / 100 then .good
  else if ndvi ≥ 4 / 10 then .moderate
  else if ndvi ≥ 25 / 100 then .poor
  else .critical

/-- Overall-summary health ladder, `part_000:371-376` (same cut points,
different label wording). -/
def overallHealth (avgNdvi : α) : HealthClass :=
  if avgNdvi ≥ 7 / 10 then .excellent
  else if avgNdvi ≥ 55 / 100 then .good
  else if avgNdvi ≥ 4 / 10 then .moderate
  else if avgNdvi ≥ 25 / 100 then .poor
  else .critical

/-- Display-color ladder, `part_000:113-116`. -/
def ndviColor (ndvi : α) : String :=
  if ndvi ≥ 7 / 10 then "#2e7d32"
  else if ndvi ≥ 55 / 100 then "#7cb342"
  else if ndvi ≥ 4 / 10 then "#fbc02d"
  else if ndvi ≥ 25 / 100 then "#f57c00"
  else "#d32f2f"

/-- `values[0] || 0.5` (`part_000:152`): JavaScript's `||` takes the
right operand when the left one is falsy, which for numbers means
`undefined` (empty array) and also the number `0`. -/
def jsFirstOr (values : List α) : α :=
  match values with
  | [] => 1 / 2
  | v :: _ => if v = 0 then 1 / 2 else v

/-- `linearForecast` (`part_000:151-171`): ordinary least squares over
indices `0..n-1`, extrapolated `days` steps and clamped; series with
fewer than two points yield a constant forecast. -/
def linearForecast (values : List α) (days : ℕ) : List α :=
  if values.length < 2 then List.replicate days (jsFirstOr values)
  else
    let n : ℕ := values.length
    let idx := List.range n
    let sumX : α := (idx.map fun (i : ℕ) => (i : α)).sum
    let sumY : α := values.sum
    let sumXY : α := (idx.map fun (i : ℕ) => (i : α) * values.getD i 0).sum
    let sumX2 : α := (idx.map fun (i : ℕ) => (i : α) * (i : α)).sum
    let slope : α := ((n : α) * sumXY - sumX * sumY) / ((n : α) * sumX2 - sumX * sumX)
    let intercept : α := (sumY - slope * sumX) / (n : α)
    (List.range days).map fun (k : ℕ) => clampNdvi (intercept + slope * ((n : α) - 1 + ((k : α) + 1)))

/-! ### Raster aggregation (`aggregateTo3x3`, `part_000:62-88`)

The JavaScript computes block bounds as `Math.floor(i * blockSize)` with
the double `blockSize = 100 / 3`; for every `i` in `0..3` this equals
the natural-number division `i * 100 / 3` (values `0, 33, 66, 100`), so
the embedding uses the latter. -/

/-- Lower pixel bound of block `i`: `Math.floor(i * (100 / 3))`. -/
def blockStart (i : ℕ) : ℕ := i * 100 / 3

/-- Upper (exclusive) pixel bound of block `i`:
`Math.floor((i + 1) * (100 / 3))`. -/
def blockEnd (i : ℕ) : ℕ := (i + 1) * 100 / 3

/-- The `(x, y)` pairs visited by the two nested `for` loops of
`part_000:76-77` for target cell `(i, j)` (`x` outer, `y` inner). -/
def blockCoords (i j : ℕ) : List (ℕ × ℕ) :=
  (List.range' (blockStart i) (blockEnd i - blockStart i)).flatMap fun x =>
    (List.range' (blockStart j) (blockEnd j - blockStart j)).map fun y => (x, y)

/-- The valid pixel values accumulated for cell `(i, j)`: the loop body
`if (x < 100 && y < 100 && !isNaN(ndviArray[y][x]))` of `part_000:78-81`.
The raster is indexed row-first, `a y x`. -/
def aggCellSamples (a : ℕ → ℕ → Option α) (i j : ℕ) : List α :=
  (blockCoords i j).filterMap fun p =>
    if p.1 < 100 ∧ p.2 < 100 then a p.2 p.1 else none

/-- `aggregateTo3x3` (`part_000:62-88`). `aggregateTo3x3 a j i` is
`result[j][i]`, the mean of the valid pixels of block `(i, j)`, or the
explicit `0` fill when the block has no valid pixel (`part_000:84`). -/
def aggregateTo3x3 (a : ℕ → ℕ → Option α) (j i : ℕ) : α :=
  let pix := aggCellSamples a i j
  if 0 < pix.length then pix.sum / (pix.length : α) else 0

/-! Spec-side formulation of the aggregator, for claim C6: written from
the spec's words ("pixel bounds = floor(i·W/N)..floor((i+1)·W/N)
exclusive, average all valid (non-no-data) pixels inside; a cell with
zero valid pixels defaults to 0"), with `W = H = 100`, `N = 3`, to be
compared with `aggregateTo3x3` above. -/

/-- Modelled from the spec: the pixel coordinates of target cell
`(i, j)`, namely all `(x, y)` of the `W x H` raster with
`floor(i·W/3) ≤ x < floor((i+1)·W/3)` and `floor(j·H/3) ≤ y < floor((j+1)·H/3)`. -/
def specBlockCoords (W H i j : ℕ) : List (ℕ × ℕ) :=
  ((List.range W).filter fun x => decide (i * W / 3 ≤ x) && decide (x < (i + 1) * W / 3)).flatMap
    fun x =>
      ((List.range H).filter fun y => decide (j * H / 3 ≤ y) && decide (y < (j + 1) * H / 3)).map
        fun y => (x, y)

/-- Modelled from the spec: the valid (non-no-data) pixel values of
cell `(i, j)` of a `100 x 100` raster. -/
def specCellSamples (a : ℕ → ℕ → Option α) (i j : ℕ) : List α :=
  (specBlockCoords 100 100 i j).filterMap fun p => a p.2 p.1

/-- Modelled from the spec: average of the valid pixels of cell
`(i, j)`, defaulting to `0` (never NaN) when there are none. -/
def specCellMean (a : ℕ → ℕ → Option α) (i j : ℕ) : α :=
  if (specCellSamples a i j).isEmpty then 0
  else (specCellSamples a i j).sum / ((specCellSamples a i j).length : α)

/-! ### Grid construction (`generateGridFromMatrix`, `part_000:93-146`) -/

/-- Padded bounding box `[minLng, minLat, maxLng, maxLat]`
(`part_000:182-197`). -/
structure BBox (α : Type*) where
  minLng : α
  minLat : α
  maxLng : α
  maxLat : α
  deriving DecidableEq

/-- One GeoJSON feature of the 3x3 grid: `properties` and the single
closed ring of its `Polygon` geometry (`part_000:123-136`). -/
structure GridCell (α : Type*) where
  ndvi : α
  health : HealthClass
  color : String
  ring : List (α × α)
  deriving DecidableEq

instance : Inhabited (GridCell α) :=
  ⟨{ ndvi := 0, health := .critical, color := "", ring := [] }⟩

/-- The grid cell pushed for loop indices `(i, j)` (`part_000:103-136`):
NDVI is `matrix[j][i]`, the ring is the closed axis-aligned rectangle
spanning `i`-th lng step and `j`-th lat step. -/
def mkGridCell (b : BBox α) (matrix : ℕ → ℕ → α) (i j : ℕ) : GridCell α :=
  let stepX := (b.maxLng - b.minLng) / 3
  let stepY := (b.maxLat - b.minLat) / 3
  let ndvi := matrix j i
  let cellMinLng := b.minLng + (i : α) * stepX
  let cellMaxLng := b.minLng + ((i : α) + 1) * stepX
  let cellMinLat := b.minLat + (j : α) * stepY
  let cellMaxLat := b.minLat + ((j : α) + 1) * stepY
  { ndvi := ndvi
    health := cellHealth ndvi
    color := ndviColor ndvi
    ring := [(cellMinLng, cellMinLat), (cellMaxLng, cellMinLat), (cellMaxLng, cellMaxLat),
      (cellMinLng, cellMaxLat), (cellMinLng, cellMinLat)] }

/-- `generateGridFromMatrix` (`part_000:93-146`): the 9 cells in loop
order (`i` outer, `j` inner) together with `avgNdvi`, the mean of the 9
pushed NDVI values. -/
def generateGridFromMatrix (b : BBox α) (matrix : ℕ → ℕ → α) : List (GridCell α) × α :=
  let cells := (List.range 3).flatMap fun i => (List.range 3).map fun j => mkGridCell b matrix i j
  let ndviValues := cells.map GridCell.ndvi
  (cells, ndviValues.sum / (ndviValues.length : α))

/-! ### Bounding box (`part_000:182-199`, duplicated `server.js:79-97`) -/

/-- One iteration of the `polygon.forEach` min/max fold
(`part_000:183-188`). -/
def bboxStep (b : BBox α) (q : α × α) : BBox α :=
  { minLng := min b.minLng q.1
    minLat := min b.minLat q.2
    maxLng := max b.maxLng q.1
    maxLat := max b.maxLat q.2 }

/-- Raw per-axis min/max of the polygon vertices. The JavaScript folds
from `±Infinity`; over a field this is the fold from the first vertex.
The `[]` case is unreachable behind the handler's length guard and is
given the degenerate all-zero box. -/
def rawBBox : List (α × α) → BBox α
  | [] => { minLng := 0, minLat := 0, maxLng := 0, maxLat := 0 }
  | p :: rest =>
    rest.foldl bboxStep { minLng := p.1, minLat := p.2, maxLng := p.1, maxLat := p.2 }

/-- The raw box padded on each axis by 10% of its span, symmetric on
both sides (`part_000:190-195`). -/
def paddedBBox (polygon : List (α × α)) : BBox α :=
  let r := rawBBox polygon
  let lngPad := (r.maxLng - r.minLng) * (1 / 10)
  let latPad := (r.maxLat - r.minLat) * (1 / 10)
  { minLng := r.minLng - lngPad
    minLat := r.minLat - latPad
    maxLng := r.maxLng + lngPad
    maxLat := r.maxLat + latPad }

/-! ### Time-series generation (`part_000:314-338`) -/

/-- One fully synthetic sample (`part_000:334`):
`0.5 + Math.sin(i / 10) * 0.2 + Math.random() * 0.1`, with the sine
injected as `sinf` and the `Math.random()` draw of iteration `i`
injected as `rnd i`. Note the synthetic branch applies no clamp. -/
def syntheticValue (sinf : α → α) (rnd : ℕ → α) (i : ℕ) : α :=
  1 / 2 + sinf ((i : α) / 10) * (2 / 10) + rnd i * (1 / 10)

/-- The fully synthetic series (`part_000:330-335`): one point per loop
index `i = period` down to `0`, oldest first. -/
def syntheticSeries (sinf : α → α) (rnd : ℕ → α) (period : ℕ) : List α :=
  ((List.range (period + 1)).reverse).map (syntheticValue sinf rnd)

/-- One mean-anchored sample (`part_000:323-324`):
`avg + Math.sin(i / 5) * 0.05 + (Math.random() * 0.02 - 0.01)`, clamped. -/
def anchoredValue (sinf : α → α) (rnd : ℕ → α) (avg : α) (i : ℕ) : α :=
  clampNdvi (avg + sinf ((i : α) / 5) * (5 / 100) + (rnd i * (2 / 100) - 1 / 100))

/-- The mean-anchored series of the real-data branch
(`part_000:316-326`), same index range as the synthetic one. -/
def anchoredSeries (sinf : α → α) (rnd : ℕ → α) (avg : α) (period : ℕ) : List α :=
  ((List.range (period + 1)).reverse).map (anchoredValue sinf rnd avg)

/-- The hard-coded 3x3 test matrix of the fallback grid
(`part_000:362-366`), row `j` then column `i`. -/
def testMatrix (avg : α) : ℕ → ℕ → α := fun j i =>
  ([[avg + 1 / 10, avg - 5 / 100, avg + 2 / 100],
    [avg - 3 / 100, avg + 7 / 100, avg - 8 / 100],
    [avg + 4 / 100, avg - 2 / 100, avg + 5 / 100]].getD j []).getD i 0

/-! ### Orchestration (`app.post('/api/analyze')`, `part_000:174-418`) -/

/-- Outcome of the Process API call made inside the inner
`try`/`catch` (`part_000:259-312`): a thrown `fetch` (`connError`), a
non-success response (`nonOk`), or a decoded `100 x 100` raster whose
out-of-`[-1,1]` entries have already been replaced by `none`
(`part_000:284-295`). -/
inductive ProcOutcome (α : Type*) where
  | connError
  | nonOk
  | payload (m : ℕ → ℕ → Option α)

/-- `ndviMatrix.flat().filter(v => !isNaN(v))` (`part_000:298`): the
valid values of the raster in row-major order. -/
def rasterValidValues (m : ℕ → ℕ → Option α) : List α :=
  ((List.range 100).flatMap fun y => (List.range 100).map fun x => (y, x)).filterMap
    fun p => m p.1 p.2

/-- The final `result` object (`part_000:395-411`), restricted to the
fields with algorithmic content (date labels, which render the current
wall-clock date, and the recommendation string are omitted). `center`
is `(lat, lng)`. -/
structure AnalysisResult (α : Type*) where
  avgNdvi : α
  health : HealthClass
  stressPercent : α
  center : α × α
  grid : List (GridCell α)
  stressZones : List (GridCell α)
  seriesValues : List α
  forecastValues : List α
  dataSource : DataSource

/-- Assembly of the response from the computed pieces
(`part_000:370-411`): overall health ladder, stress filter
(`ndvi < 0.3`, strict), `stressPercent = count / 9 * 100`. -/
def assemble (avg : α) (center : α × α) (cells : List (GridCell α)) (series fc : List α)
    (ds : DataSource) : AnalysisResult α :=
  let stress := cells.filter fun c => decide (c.ndvi < 3 / 10)
  { avgNdvi := avg
    health := overallHealth avg
    stressPercent := ((stress.length : α) / (cells.length : α)) * 100
    center := center
    grid := cells
    stressZones := stress
    seriesValues := series
    forecastValues := fc
    dataSource := ds }

/-- Everything the handler does after the polygon guard and the token
acquisition (`part_000:181-411`); this region never throws, so it is a
total function. The inner `try`/`catch` collapses to: a raster survives
iff the call produced a payload with at least one valid pixel
(`part_000:269-272`, the `throw` at `part_000:300` caught at
`part_000:309-312`). -/
def analyzeCore (sinf : α → α) (rnd : ℕ → α) (polygon : List (α × α)) (period : ℕ)
    (proc : ProcOutcome α) : AnalysisResult α :=
  let bbox := paddedBBox polygon
  let center := ((bbox.minLat + bbox.maxLat) / 2, (bbox.minLng + bbox.maxLng) / 2)
  let realRaster : Option (ℕ → ℕ → Option α) :=
    match proc with
    | .payload m => if rasterValidValues m = [] then none else some m
    | _ => none
  match realRaster with
  | some m =>
    let valid := rasterValidValues m
    let avg0 := valid.sum / (valid.length : α)
    let series := anchoredSeries sinf rnd avg0 period
    let fc := linearForecast (series.drop (series.length - 5)) 7
    let gr := generateGridFromMatrix bbox (aggregateTo3x3 m)
    assemble gr.2 center gr.1 series fc .real
  | none =>
    let series := syntheticSeries sinf rnd period
    let avg := series.sum / (series.length : α)
    let fc := linearForecast (series.drop (series.length - 5)) 7
    let gr := generateGridFromMatrix bbox (testMatrix avg)
    assemble avg center gr.1 series fc .synthetic

/-- `POST /api/analyze` (`part_000:174-418`). The polygon guard
(`part_000:176-178`) rejects fewer than 3 vertices with a 400. Inside
the outer `try`, `getAccessToken()` (`part_000:210`) runs *outside* the
inner `try`/`catch`, so a token failure propagates to the outer catch
and becomes the 500 `internalError`; only after a token is obtained
does the fallback-protected imagery call run. -/
def handleAnalyze (sinf : α → α) (rnd : ℕ → α) (polygon : List (α × α)) (period : ℕ)
    (tokenOk : Bool) (proc : ProcOutcome α) : Except AnalyzeError (AnalysisResult α) :=
  if polygon.length < 3 then .error .badRequest
  else if tokenOk then .ok (analyzeCore sinf rnd polygon period proc)
  else .error .internalError

/-- Which Process API outcomes the handler recovers from by switching
to synthetic mode: a connection error, a non-success response, or a
payload none of whose pixels is valid. -/
def acquisitionFails : ProcOutcome α → Prop
  | .connError => True
  | .nonOk => True
  | .payload m => rasterValidValues m = []

/-! ### Helper lemmas -/

theorem clampNdvi_bounds (v : α) : 1 / 10 ≤ clampNdvi v ∧ clampNdvi v ≤ 9 / 10 :=
  ⟨le_min (by norm_num) (le_max_left _ _), min_le_left _ _⟩

theorem clampNdvi_eq_self {v : α} (h1 : 1 / 10 ≤ v) (h2 : v ≤ 9 / 10) : clampNdvi v = v := by
  unfold clampNdvi
  rw [max_eq_right h1, min_eq_right h2]

theorem filterMap_dropGuard {β : Type*} (P : ℕ × ℕ → Prop) [DecidablePred P]
    (f : ℕ × ℕ → Option β) (l : List (ℕ × ℕ)) (h : ∀ p ∈ l, P p) :
    (l.filterMap fun p => if P p then f p else none) = l.filterMap f :=
  List.filterMap_congr fun p hp => by rw [if_pos (h p hp)]

theorem list_mean_mem_Icc (l : List α) (lo hi : α) (hne : l ≠ [])
    (h : ∀ x ∈ l, lo ≤ x ∧ x ≤ hi) :
    lo ≤ l.sum / (l.length : α) ∧ l.sum / (l.length : α) ≤ hi := by
  have hlen : 0 < (l.length : α) := by
    exact_mod_cast List.length_pos.mpr hne
  constructor
  · rw [le_div_iff₀ hlen]
    calc lo * (l.length : α) = l.length • lo := by rw [nsmul_eq_mul]; ring
    _ ≤ l.sum := List.card_nsmul_le_sum l lo fun x hx => (h x hx).1
  · rw [div_le_iff₀ hlen]
    calc l.sum ≤ l.length • hi := List.sum_le_card_nsmul l hi fun x hx => (h x hx).2
    _ = hi * (l.length : α) := by rw [nsmul_eq_mul]; ring

theorem foldl_bboxStep_bounds (l : List (α × α)) (b : BBox α) :
    (l.foldl bboxStep b).minLng ≤ b.minLng ∧ b.maxLng ≤ (l.foldl bboxStep b).maxLng ∧
    (l.foldl bboxStep b).minLat ≤ b.minLat ∧ b.maxLat ≤ (l.foldl bboxStep b).maxLat ∧
    ∀ q ∈ l, (l.foldl bboxStep b).minLng ≤ q.1 ∧ q.1 ≤ (l.foldl bboxStep b).maxLng ∧
      (l.foldl bboxStep b).minLat ≤ q.2 ∧ q.2 ≤ (l.foldl bboxStep b).maxLat := by
  induction l generalizing b with
  | nil => simp
  | cons p t ih =>
    simp only [List.foldl_cons]
    obtain ⟨h1, h2, h3, h4, h5⟩ := ih (bboxStep b p)
    refine ⟨h1.trans (min_le_left _ _), (le_max_left _ _).trans h2,
      h3.trans (min_le_left _ _), (le_max_left _ _).trans h4, ?_⟩
    intro q hq
    rcases List.mem_cons.mp hq with rfl | hq
    · exact ⟨h1.trans (min_le_right _ _), (le_max_right _ _).trans h2,
        h3.trans (min_le_right _ _), (le_max_right _ _).trans h4⟩
    · exact h5 q hq

theorem rawBBox_mem_bounds (polygon : List (α × α)) (q : α × α) (hq : q ∈ polygon) :
    (rawBBox polygon).minLng ≤ q.1 ∧ q.1 ≤ (rawBBox polygon).maxLng ∧
    (rawBBox polygon).minLat ≤ q.2 ∧ q.2 ≤ (rawBBox polygon).maxLat := by
  match polygon with
  | [] => cases hq
  | p :: rest =>
    obtain ⟨h1, h2, h3, h4, h5⟩ :=
      foldl_bboxStep_bounds rest
        ({ minLng := p.1, minLat := p.2, maxLng := p.1, maxLat := p.2 } : BBox α)
    rcases List.mem_cons.mp hq with rfl | hq
    · exact ⟨h1, h2, h3, h4⟩
    · exact h5 q hq

theorem reverse_range_map_getD (f : ℕ → α) (n k : ℕ) (hk : k < n + 1) :
    (((List.range (n + 1)).reverse).map f).getD k 0 = f (n - k) := by
  have hlen : k < (((List.range (n + 1)).reverse).map f).length := by simpa using hk
  rw [List.getD_eq_getElem _ _ hlen, List.getElem_map, List.getElem_reverse,
    List.getElem_range]
  congr 1
  simp

theorem mean_formulations (l : List α) :
    (if 0 < l.length then l.sum / (l.length : α) else 0) =
    (if l.isEmpty then 0 else l.sum / (l.length : α)) := by
  cases l <;> simp

theorem range_filter_between (n : ℕ) :
    ∀ s e, (List.range n).filter (fun x => decide (s ≤ x) && decide (x < e)) =
      List.range' s (min e n - s) := by
  induction n with
  | zero =>
    intro s e
    simp
  | succ n ih =>
    intro s e
    rw [List.range_succ, List.filter_append, ih s e]
    by_cases hne : n < e
    · have hmin : min e n = n := by omega
      have hmin' : min e (n + 1) = n + 1 := by omega
      by_cases hsn : s ≤ n
      · have hfil : List.filter (fun x => decide (s ≤ x) && decide (x < e)) [n] = [n] := by
          simp [List.filter_cons, hsn, hne]
        rw [hfil, hmin, hmin', show n + 1 - s = (n - s) + 1 by omega, List.range'_1_concat,
          show s + (n - s) = n by omega]
      · have hfil : List.filter (fun x => decide (s ≤ x) && decide (x < e)) [n] = [] := by
          simp [List.filter_cons, hsn]
        rw [hfil, hmin, hmin', show n - s = 0 by omega, show n + 1 - s = 0 by omega,
          List.append_nil]
    · have hfil : List.filter (fun x => decide (s ≤ x) && decide (x < e)) [n] = [] := by
        simp [List.filter_cons, hne]
      rw [hfil, show min e (n + 1) = min e n by omega, List.append_nil]

theorem blockCoords_eq_spec (i j : ℕ) (hi : i < 3) (hj : j < 3) :
    blockCoords i j = specBlockCoords 100 100 i j := by
  unfold blockCoords specBlockCoords blockStart blockEnd
  rw [range_filter_between, range_filter_between,
    show min ((i + 1) * 100 / 3) 100 = (i + 1) * 100 / 3 by omega,
    show min ((j + 1) * 100 / 3) 100 = (j + 1) * 100 / 3 by omega]

theorem blockCoords_mem_bound (i j : ℕ) (hi : i < 3) (hj : j < 3) :
    ∀ p ∈ blockCoords i j, p.1 < 100 ∧ p.2 < 100 := by
  intro p hp
  unfold blockCoords at hp
  simp only [List.mem_flatMap, List.mem_map, List.mem_range'] at hp
  obtain ⟨x, ⟨kx, hkx, hxv⟩, y, ⟨ky, hky, hyv⟩, rfl⟩ := hp
  simp only [blockStart, blockEnd] at hkx hky hxv hyv
  constructor <;> simp only <;> omega

theorem aggCellSamples_eq_spec (a : ℕ → ℕ → Option α) (i j : ℕ)
    (hco : blockCoords i j = specBlockCoords 100 100 i j)
    (hbound : ∀ p ∈ blockCoords i j, p.1 < 100 ∧ p.2 < 100) :
    aggCellSamples a i j = specCellSamples a i j := by
  unfold aggCellSamples specCellSamples
  rw [filterMap_dropGuard _ _ _ hbound, hco]

theorem agg_eq_specMean_of (a : ℕ → ℕ → Option α) (i j : ℕ)
    (h : aggCellSamples a i j = specCellSamples a i j) :
    aggregateTo3x3 a j i = specCellMean a i j := by
  unfold aggregateTo3x3 specCellMean
  rw [h]
  exact mean_formulations _

theorem generateGrid_cells (b : BBox α) (matrix : ℕ → ℕ → α) :
    (generateGridFromMatrix b matrix).1 =
      [mkGridCell b matrix 0 0, mkGridCell b matrix 0 1, mkGridCell b matrix 0 2,
       mkGridCell b matrix 1 0, mkGridCell b matrix 1 1, mkGridCell b matrix 1 2,
       mkGridCell b matrix 2 0, mkGridCell b matrix 2 1, mkGridCell b matrix 2 2] := rfl

/-! ### Claim theorems -/

/-- Claim C7: the health classifier assigns exactly one of 5 ordered
labels by inclusive lower bounds evaluated high to low (≥0.70 excellent,
≥0.55 good, ≥0.40 moderate, ≥0.25 poor, else critical), the boundary
values map to the higher bucket, and the per-cell ladder and the
overall-summary ladder use the same cut points. -/
theorem health_ladder_partition (x : α) :
    overallHealth x = cellHealth x ∧
    (cellHealth x = .excellent ↔ 7 / 10 ≤ x) ∧
    (cellHealth x = .good ↔ 55 / 100 ≤ x ∧ x < 7 / 10) ∧
    (cellHealth x = .moderate ↔ 4 / 10 ≤ x ∧ x < 55 / 100) ∧
    (cellHealth x = .poor ↔ 25 / 100 ≤ x ∧ x < 4 / 10) ∧
    (cellHealth x = .critical ↔ x < 25 / 100) := by
  refine ⟨rfl, ?_, ?_, ?_, ?_, ?_⟩ <;>
    · unfold cellHealth
      split_ifs with h1 h2 h3 h4 <;> simp_all <;>
        first
          | linarith
          | (intro h; linarith)

/-- Claim C7 witness: each boundary value lands in its higher bucket,
and the overall ladder agrees on a sample point. -/
theorem health_ladder_partition_witness :
    cellHealth ((7 : ℚ) / 10) = HealthClass.excellent ∧
    cellHealth ((55 : ℚ) / 100) = HealthClass.good ∧
    cellHealth ((4 : ℚ) / 10) = HealthClass.moderate ∧
    cellHealth ((25 : ℚ) / 100) = HealthClass.poor ∧
    overallHealth ((1 : ℚ) / 10) = HealthClass.critical :=
  ⟨(health_ladder_partition _).2.1.mpr (by norm_num),
   (health_ladder_partition _).2.2.1.mpr (by norm_num),
   (health_ladder_partition _).2.2.2.1.mpr (by norm_num),
   (health_ladder_partition _).2.2.2.2.1.mpr (by norm_num),
   by
     rw [(health_ladder_partition _).1]
     exact (health_ladder_partition _).2.2.2.2.2.mpr (by norm_num)⟩

/-- Claim C2: for every input time series (whose values, per the data
model, are NDVI values clamped to `[0.1, 0.9]`) of any length, including
0 and 1, every value of the 7-step forecast lies in `[0.1, 0.9]`. -/
theorem forecast_values_within_clamp_range (values : List α)
    (h : ∀ v ∈ values, 1 / 10 ≤ v ∧ v ≤ 9 / 10) :
    ∀ w ∈ linearForecast values 7, 1 / 10 ≤ w ∧ w ≤ 9 / 10 := by
  intro w hw
  unfold linearForecast at hw
  split_ifs at hw with hlen
  · rw [List.eq_of_mem_replicate hw]
    rcases values with - | ⟨v, t⟩
    · simp only [jsFirstOr]
      norm_num
    · simp only [jsFirstOr]
      have hv := h v (List.mem_cons_self v t)
      rw [if_neg fun h0 => by rw [h0] at hv; exact absurd hv.1 (by norm_num)]
      exact hv
  · simp only [List.mem_map] at hw
    obtain ⟨k, -, rfl⟩ := hw
    exact clampNdvi_bounds _

/-- Claim C2 witness: a concrete steeply rising two-point series whose
extrapolation is clamped back into range. -/
theorem forecast_values_within_clamp_range_witness :
    (∀ v ∈ ([1 / 10, 9 / 10] : List ℚ), 1 / 10 ≤ v ∧ v ≤ 9 / 10) ∧
    ∀ w ∈ linearForecast ([1 / 10, 9 / 10] : List ℚ) 7, 1 / 10 ≤ w ∧ w ≤ 9 / 10 := by
  have hmem : ∀ v ∈ ([1 / 10, 9 / 10] : List ℚ), 1 / 10 ≤ v ∧ v ≤ 9 / 10 := by
    intro v hv
    fin_cases hv <;> norm_num
  exact ⟨hmem, forecast_values_within_clamp_range _ hmem⟩

/-- Claim C5: a series with fewer than 2 points yields a constant
7-point forecast — the last known value for a singleton series (whose
value, per the data model, lies in `[0.1, 0.9]`), and `0.5` for an
empty series. -/
theorem forecast_short_series_constant (v : α) (h1 : 1 / 10 ≤ v) (h2 : v ≤ 9 / 10) :
    linearForecast ([] : List α) 7 = List.replicate 7 (1 / 2) ∧
    linearForecast [v] 7 = List.replicate 7 v := by
  constructor
  · rfl
  · have hv0 : ¬ v = 0 := fun h0 => by rw [h0] at h1; exact absurd h1 (by norm_num)
    simp only [linearForecast, jsFirstOr, List.length_cons, List.length_nil]
    norm_num [hv0]

/-- Claim C5 witness: concrete singleton and empty series. -/
theorem forecast_short_series_constant_witness :
    (1 / 10 ≤ (3 : ℚ) / 4 ∧ (3 : ℚ) / 4 ≤ 9 / 10) ∧
    linearForecast ([] : List ℚ) 7 = List.replicate 7 (1 / 2) ∧
    linearForecast [(3 : ℚ) / 4] 7 = List.replicate 7 ((3 : ℚ) / 4) :=
  ⟨⟨by norm_num, by norm_num⟩,
   (forecast_short_series_constant ((3 : ℚ) / 4) (by norm_num) (by norm_num)).1,
   (forecast_short_series_constant ((3 : ℚ) / 4) (by norm_num) (by norm_num)).2⟩

/-- Claim C3 counterexample: three pairwise-distinct but collinear
vertices (all at latitude 0) give a padded bbox with
`minLat = maxLat`, refuting the claim for arbitrary polygons with at
least 3 distinct vertices. -/
theorem collinear_polygon_padded_bbox_degenerate :
    (((0 : ℚ), (0 : ℚ)) ≠ ((1 : ℚ), (0 : ℚ)) ∧ ((0 : ℚ), (0 : ℚ)) ≠ ((2 : ℚ), (0 : ℚ)) ∧
      ((1 : ℚ), (0 : ℚ)) ≠ ((2 : ℚ), (0 : ℚ))) ∧
    ([((0 : ℚ), (0 : ℚ)), (1, 0), (2, 0)] : List (ℚ × ℚ)).length = 3 ∧
    ¬ ((paddedBBox ([((0 : ℚ), (0 : ℚ)), (1, 0), (2, 0)] : List (ℚ × ℚ))).minLat <
        (paddedBBox ([((0 : ℚ), (0 : ℚ)), (1, 0), (2, 0)] : List (ℚ × ℚ))).maxLat) :=
  ⟨⟨by norm_num [Prod.ext_iff], by norm_num [Prod.ext_iff], by norm_num [Prod.ext_iff]⟩,
   rfl, by norm_num [paddedBBox, rawBBox, bboxStep, min_def, max_def]⟩

/-- Claim C3 (amended): for every polygon containing two vertices with
distinct longitudes and two vertices with distinct latitudes, the
10%-padded bounding box satisfies `minLng < maxLng` and
`minLat < maxLat`. -/
theorem paddedBBox_pos_span (polygon : List (α × α))
    (hx : ∃ p ∈ polygon, ∃ q ∈ polygon, p.1 < q.1)
    (hy : ∃ p ∈ polygon, ∃ q ∈ polygon, p.2 < q.2) :
    (paddedBBox polygon).minLng < (paddedBBox polygon).maxLng ∧
    (paddedBBox polygon).minLat < (paddedBBox polygon).maxLat := by
  obtain ⟨p, hp, q, hq, hpq⟩ := hx
  obtain ⟨r, hr, s, hs, hrs⟩ := hy
  obtain ⟨hp1, hp2, -, -⟩ := rawBBox_mem_bounds polygon p hp
  obtain ⟨-, hq2, -, -⟩ := rawBBox_mem_bounds polygon q hq
  obtain ⟨-, -, hr3, -⟩ := rawBBox_mem_bounds polygon r hr
  obtain ⟨-, -, -, hs4⟩ := rawBBox_mem_bounds polygon s hs
  have hq1 := (rawBBox_mem_bounds polygon q hq).1
  have hr4 := (rawBBox_mem_bounds polygon r hr).2.2.2
  have hs3 := (rawBBox_mem_bounds polygon s hs).2.2.1
  unfold paddedBBox
  constructor <;> simp only <;> linarith

/-- Claim C3 witness: a concrete triangle spanning both axes. -/
theorem paddedBBox_pos_span_witness :
    (∃ p ∈ ([((0 : ℚ), (0 : ℚ)), (1, 1), (2, 0)] : List (ℚ × ℚ)),
      ∃ q ∈ ([((0 : ℚ), (0 : ℚ)), (1, 1), (2, 0)] : List (ℚ × ℚ)), p.1 < q.1) ∧
    (∃ p ∈ ([((0 : ℚ), (0 : ℚ)), (1, 1), (2, 0)] : List (ℚ × ℚ)),
      ∃ q ∈ ([((0 : ℚ), (0 : ℚ)), (1, 1), (2, 0)] : List (ℚ × ℚ)), p.2 < q.2) ∧
    ((paddedBBox ([((0 : ℚ), (0 : ℚ)), (1, 1), (2, 0)] : List (ℚ × ℚ))).minLng <
        (paddedBBox ([((0 : ℚ), (0 : ℚ)), (1, 1), (2, 0)] : List (ℚ × ℚ))).maxLng ∧
      (paddedBBox ([((0 : ℚ), (0 : ℚ)), (1, 1), (2, 0)] : List (ℚ × ℚ))).minLat <
        (paddedBBox ([((0 : ℚ), (0 : ℚ)), (1, 1), (2, 0)] : List (ℚ × ℚ))).maxLat) := by
  have hx : ∃ p ∈ ([((0 : ℚ), (0 : ℚ)), (1, 1), (2, 0)] : List (ℚ × ℚ)),
      ∃ q ∈ ([((0 : ℚ), (0 : ℚ)), (1, 1), (2, 0)] : List (ℚ × ℚ)), p.1 < q.1 :=
    ⟨(0, 0), by simp, (1, 1), by simp, by norm_num⟩
  have hy : ∃ p ∈ ([((0 : ℚ), (0 : ℚ)), (1, 1), (2, 0)] : List (ℚ × ℚ)),
      ∃ q ∈ ([((0 : ℚ), (0 : ℚ)), (1, 1), (2, 0)] : List (ℚ × ℚ)), p.2 < q.2 :=
    ⟨(0, 0), by simp, (1, 1), by simp, by norm_num⟩
  exact ⟨hx, hy, paddedBBox_pos_span _ hx hy⟩

/-- Claim C10: if every valid entry of the raster lies in `[-1, 1]`,
every cell of the aggregated 3x3 matrix lies in `[-1, 1]` (each cell is
a mean of in-range values or the zero fill), so aggregation never
produces NaN for downstream classification and grid building. -/
theorem aggregateTo3x3_range_invariant (a : ℕ → ℕ → Option α)
    (h : ∀ y x v, a y x = some v → -1 ≤ v ∧ v ≤ 1) (j i : ℕ) :
    -1 ≤ aggregateTo3x3 a j i ∧ aggregateTo3x3 a j i ≤ 1 := by
  simp only [aggregateTo3x3]
  split_ifs with hlen
  · apply list_mean_mem_Icc
    · exact List.length_pos.mp hlen
    · intro x hx
      unfold aggCellSamples at hx
      simp only [List.mem_filterMap] at hx
      obtain ⟨p, -, hpx⟩ := hx
      split_ifs at hpx
      exact h _ _ _ hpx
  · norm_num

/-- Claim C10 witness: a constant valid raster. -/
theorem aggregateTo3x3_range_invariant_witness :
    (∀ (y x : ℕ) (v : ℚ), (fun (_ _ : ℕ) => some ((1 : ℚ) / 2)) y x = some v → -1 ≤ v ∧ v ≤ 1) ∧
    (-1 ≤ aggregateTo3x3 (fun (_ _ : ℕ) => some ((1 : ℚ) / 2)) 0 0 ∧
      aggregateTo3x3 (fun (_ _ : ℕ) => some ((1 : ℚ) / 2)) 0 0 ≤ 1) := by
  have hh : ∀ (y x : ℕ) (v : ℚ),
      (fun (_ _ : ℕ) => some ((1 : ℚ) / 2)) y x = some v → -1 ≤ v ∧ v ≤ 1 := by
    intro y x v hv
    obtain rfl : (1 : ℚ) / 2 = v := Option.some.inj hv
    norm_num
  exact ⟨hh, aggregateTo3x3_range_invariant _ hh 0 0⟩

/-- Claim C4: in fully synthetic mode with period `P`, the synthesizer
produces one point per index `i = P` down to `0` inclusive (`P + 1`
points, oldest to newest); the point for index `i` equals
`0.5 + 0.2·sin(i/10)` plus a noise term in `[0, 0.1)`, and every
produced value lies in `[0.1, 0.9]`, i.e. the clamp to that interval
fixes it. -/
theorem syntheticSeries_spec (sinf : α → α) (rnd : ℕ → α) (period : ℕ)
    (hs : ∀ x, -1 ≤ sinf x ∧ sinf x ≤ 1) (hr : ∀ k, 0 ≤ rnd k ∧ rnd k < 1) :
    (syntheticSeries sinf rnd period).length = period + 1 ∧
    ∀ k, k < period + 1 →
      (syntheticSeries sinf rnd period).getD k 0 =
        1 / 2 + sinf (((period - k : ℕ) : α) / 10) * (2 / 10) + rnd (period - k) * (1 / 10) ∧
      (0 ≤ rnd (period - k) * (1 / 10) ∧ rnd (period - k) * (1 / 10) < 1 / 10) ∧
      1 / 10 ≤ (syntheticSeries sinf rnd period).getD k 0 ∧
      (syntheticSeries sinf rnd period).getD k 0 ≤ 9 / 10 ∧
      clampNdvi ((syntheticSeries sinf rnd period).getD k 0) =
        (syntheticSeries sinf rnd period).getD k 0 := by
  have hlen : (syntheticSeries sinf rnd period).length = period + 1 := by
    simp [syntheticSeries]
  refine ⟨hlen, ?_⟩
  intro k hk
  have hval : (syntheticSeries sinf rnd period).getD k 0 =
      syntheticValue sinf rnd (period - k) :=
    reverse_range_map_getD _ period k hk
  have hs1 := hs (((period - k : ℕ) : α) / 10)
  have hr1 := hr (period - k)
  have hlow : 1 / 10 ≤ syntheticValue sinf rnd (period - k) := by
    unfold syntheticValue
    linarith [hs1.1, hr1.1]
  have hhigh : syntheticValue sinf rnd (period - k) ≤ 9 / 10 := by
    unfold syntheticValue
    linarith [hs1.2, hr1.2]
  refine ⟨by rw [hval]; rfl, ⟨mul_nonneg hr1.1 (by norm_num), by linarith [hr1.2]⟩,
    ?_, ?_, ?_⟩
  · rw [hval]; exact hlow
  · rw [hval]; exact hhigh
  · rw [hval]; exact clampNdvi_eq_self hlow hhigh

/-- Claim C4 witness: zero sine and zero noise draws, period 2. -/
theorem syntheticSeries_spec_witness :
    (∀ x : ℚ, -1 ≤ (fun _ : ℚ => (0 : ℚ)) x ∧ (fun _ : ℚ => (0 : ℚ)) x ≤ 1) ∧
    (∀ k : ℕ, 0 ≤ (fun _ : ℕ => (0 : ℚ)) k ∧ (fun _ : ℕ => (0 : ℚ)) k < 1) ∧
    (syntheticSeries (fun _ : ℚ => 0) (fun _ : ℕ => 0) 2).length = 2 + 1 := by
  have h1 : ∀ x : ℚ, -1 ≤ (fun _ : ℚ => (0 : ℚ)) x ∧ (fun _ : ℚ => (0 : ℚ)) x ≤ 1 := by
    intro x
    norm_num
  have h2 : ∀ k : ℕ, 0 ≤ (fun _ : ℕ => (0 : ℚ)) k ∧ (fun _ : ℕ => (0 : ℚ)) k < 1 := by
    intro k
    norm_num
  exact ⟨h1, h2, (syntheticSeries_spec (fun _ : ℚ => 0) (fun _ : ℕ => 0) 2 h1 h2).1⟩

/-- Claim C6: over the fixed 100x100 raster resolution, cell `(i, j)` of
the 3x3 aggregation averages exactly the valid (non-no-data) pixels
whose coordinates lie in `floor(i·W/3) ≤ x < floor((i+1)·W/3)` and
`floor(j·H/3) ≤ y < floor((j+1)·H/3)`; a cell with zero valid pixels
gets the value 0 (never NaN), and in particular an all-no-data raster
yields the all-zero 3x3 matrix. -/
theorem aggregateTo3x3_matches_spec_mean (a : ℕ → ℕ → Option α) (i j : Fin 3) :
    aggregateTo3x3 a j.val i.val = specCellMean a i.val j.val ∧
    ((∀ y x, a y x = none) → aggregateTo3x3 a j.val i.val = 0) := by
  constructor
  · exact agg_eq_specMean_of a _ _
      (aggCellSamples_eq_spec a _ _ (blockCoords_eq_spec _ _ i.isLt j.isLt)
        (blockCoords_mem_bound _ _ i.isLt j.isLt))
  · intro hnone
    have hnil : aggCellSamples a i.val j.val = [] := by
      simp [aggCellSamples, hnone, List.filterMap_eq_nil_iff]
    simp [aggregateTo3x3, hnil]

/-- Claim C6 witness: the all-no-data raster aggregates to 0. -/
theorem aggregateTo3x3_matches_spec_mean_witness :
    aggregateTo3x3 (fun (_ _ : ℕ) => (none : Option ℚ)) 0 0 = 0 :=
  (aggregateTo3x3_matches_spec_mean (fun (_ _ : ℕ) => (none : Option ℚ)) 0 0).2
    fun _ _ => rfl

/-- Claim C8: for every bbox and 3x3 matrix the grid builder produces
exactly 9 cells; the cell for loop indices `(i, j)` (list position
`3i + j`) carries NDVI `matrix[j][i]` and a closed 5-point axis-aligned
rectangular ring with corners at `minLng + i·stepX, minLat + j·stepY`
and `minLng + (i+1)·stepX, minLat + (j+1)·stepY` for
`stepX = (maxLng − minLng)/3`, `stepY = (maxLat − minLat)/3`; the
returned average is the arithmetic mean of the 9 cell values. -/
theorem generateGrid_cells_spec (b : BBox α) (matrix : ℕ → ℕ → α) :
    (generateGridFromMatrix b matrix).1.length = 9 ∧
    (∀ i j : Fin 3,
      ((generateGridFromMatrix b matrix).1.getD (3 * i.val + j.val) default).ndvi =
        matrix j.val i.val ∧
      ((generateGridFromMatrix b matrix).1.getD (3 * i.val + j.val) default).ring =
        [(b.minLng + (i.val : α) * ((b.maxLng - b.minLng) / 3),
          b.minLat + (j.val : α) * ((b.maxLat - b.minLat) / 3)),
         (b.minLng + ((i.val : α) + 1) * ((b.maxLng - b.minLng) / 3),
          b.minLat + (j.val : α) * ((b.maxLat - b.minLat) / 3)),
         (b.minLng + ((i.val : α) + 1) * ((b.maxLng - b.minLng) / 3),
          b.minLat + ((j.val : α) + 1) * ((b.maxLat - b.minLat) / 3)),
         (b.minLng + (i.val : α) * ((b.maxLng - b.minLng) / 3),
          b.minLat + ((j.val : α) + 1) * ((b.maxLat - b.minLat) / 3)),
         (b.minLng + (i.val : α) * ((b.maxLng - b.minLng) / 3),
          b.minLat + (j.val : α) * ((b.maxLat - b.minLat) / 3))] ∧
      ((generateGridFromMatrix b matrix).1.getD (3 * i.val + j.val) default).ring.head? =
        ((generateGridFromMatrix b matrix).1.getD (3 * i.val + j.val) default).ring.getLast?) ∧
    (generateGridFromMatrix b matrix).2 =
      ((generateGridFromMatrix b matrix).1.map GridCell.ndvi).sum / 9 := by
  refine ⟨rfl, ?_, ?_⟩
  · intro i j
    fin_cases i <;> fin_cases j <;> exact ⟨rfl, rfl, rfl⟩
  · show ((generateGridFromMatrix b matrix).1.map GridCell.ndvi).sum /
        ((((generateGridFromMatrix b matrix).1.map GridCell.ndvi).length : ℕ) : α) =
      ((generateGridFromMatrix b matrix).1.map GridCell.ndvi).sum / 9
    rw [generateGrid_cells]
    norm_num

/-- Claim C8 witness: a concrete bbox and matrix produce 9 cells. -/
theorem generateGrid_cells_spec_witness :
    (generateGridFromMatrix ({ minLng := 0, minLat := 0, maxLng := 3, maxLat := 3 } : BBox ℚ)
      (fun j i => (j : ℚ) + (i : ℚ))).1.length = 9 :=
  (generateGrid_cells_spec _ _).1

/-- Claim C9: the stress-zone detector selects exactly the grid cells
with NDVI strictly below 0.30 (a subset of the grid), and
`stressPercent` equals `100 · count / 9`, hence is a multiple of
`100/9` lying in `[0, 100]`. -/
theorem stress_zones_spec (b : BBox α) (matrix : ℕ → ℕ → α) (avg : α) (center : α × α)
    (series fc : List α) (ds : DataSource) :
    (assemble avg center (generateGridFromMatrix b matrix).1 series fc ds).stressZones =
      (generateGridFromMatrix b matrix).1.filter (fun c => decide (c.ndvi < 3 / 10)) ∧
    ((assemble avg center (generateGridFromMatrix b matrix).1 series fc ds).stressZones.Sublist
      (generateGridFromMatrix b matrix).1) ∧
    (∀ c ∈ (assemble avg center (generateGridFromMatrix b matrix).1 series fc ds).stressZones,
      c.ndvi < 3 / 10) ∧
    (∀ c ∈ (generateGridFromMatrix b matrix).1, c.ndvi < 3 / 10 →
      c ∈ (assemble avg center (generateGridFromMatrix b matrix).1 series fc ds).stressZones) ∧
    (assemble avg center (generateGridFromMatrix b matrix).1 series fc ds).stressPercent =
      100 * (((assemble avg center (generateGridFromMatrix b matrix).1 series fc
        ds).stressZones.length : ℕ) : α) / 9 ∧
    (∃ k : ℕ, k ≤ 9 ∧
      (assemble avg center (generateGridFromMatrix b matrix).1 series fc ds).stressPercent =
        ((k : ℕ) : α) * (100 / 9)) ∧
    0 ≤ (assemble avg center (generateGridFromMatrix b matrix).1 series fc ds).stressPercent ∧
    (assemble avg center (generateGridFromMatrix b matrix).1 series fc ds).stressPercent ≤ 100 := by
  have hz : (assemble avg center (generateGridFromMatrix b matrix).1 series fc ds).stressZones =
      (generateGridFromMatrix b matrix).1.filter (fun c => decide (c.ndvi < 3 / 10)) := rfl
  have hsub : (assemble avg center (generateGridFromMatrix b matrix).1 series fc
      ds).stressZones.Sublist (generateGridFromMatrix b matrix).1 := by
    rw [hz]
    exact List.filter_sublist _
  have hlen9 : (generateGridFromMatrix b matrix).1.length = 9 := rfl
  have hkle : (assemble avg center (generateGridFromMatrix b matrix).1 series fc
      ds).stressZones.length ≤ 9 := by
    have := hsub.length_le
    omega
  have hpct : (assemble avg center (generateGridFromMatrix b matrix).1 series fc
      ds).stressPercent =
      (((assemble avg center (generateGridFromMatrix b matrix).1 series fc
        ds).stressZones.length : ℕ) : α) /
        (((generateGridFromMatrix b matrix).1.length : ℕ) : α) * 100 := rfl
  have hcast9 : ((((generateGridFromMatrix b matrix).1.length : ℕ)) : α) = 9 := by
    rw [hlen9]
    norm_num
  refine ⟨hz, hsub, ?_, ?_, ?_, ?_, ?_, ?_⟩
  · intro c hcm
    rw [hz] at hcm
    simp only [List.mem_filter, decide_eq_true_eq] at hcm
    exact hcm.2
  · intro c hcm hlt
    rw [hz]
    simp only [List.mem_filter, decide_eq_true_eq]
    exact ⟨hcm, hlt⟩
  · rw [hpct, hcast9]
    ring
  · refine ⟨(assemble avg center (generateGridFromMatrix b matrix).1 series fc
      ds).stressZones.length, hkle, ?_⟩
    rw [hpct, hcast9]
    ring
  · rw [hpct, hcast9]
    positivity
  · rw [hpct, hcast9]
    have hcle : ((((assemble avg center (generateGridFromMatrix b matrix).1 series fc
        ds).stressZones.length : ℕ)) : α) ≤ 9 := by
      exact_mod_cast hkle
    nlinarith [hcle]

/-- Claim C9 witness: a concrete all-stressed grid reaches 100%. -/
theorem stress_zones_spec_witness :
    (assemble (0 : ℚ) (0, 0)
      (generateGridFromMatrix ({ minLng := 0, minLat := 0, maxLng := 3, maxLat := 3 } : BBox ℚ)
        (fun _ _ => 0)).1 [] [] .synthetic).stressPercent ≤ 100 :=
  (stress_zones_spec _ _ _ _ _ _ _).2.2.2.2.2.2.2

/-- Claim C1 counterexample: with a valid 3-vertex polygon, a failure
while obtaining the access token makes the request fail with the
internal-error response instead of falling back to a synthetic result —
refuting the claim for the token-acquisition step. -/
theorem tokenFailure_surfaces_internalError :
    3 ≤ ([((0 : ℚ), (0 : ℚ)), (0, 1), (1, 1)] : List (ℚ × ℚ)).length ∧
    handleAnalyze (fun _ : ℚ => 0) (fun _ : ℕ => 0)
      ([((0 : ℚ), (0 : ℚ)), (0, 1), (1, 1)] : List (ℚ × ℚ)) 30 false .connError =
      .error .internalError :=
  ⟨by norm_num, rfl⟩

/-- Claim C1 (amended): once the access token is obtained, a failure of
the imagery process request (connection error, non-success response, or
a payload with zero valid pixels) never fails a request with a valid
polygon: the handler returns a normal result built from the synthetic
fallback series, tagged with synthetic provenance. A failure obtaining
the token instead surfaces as an internal error. -/
theorem imageryFailure_falls_back_to_synthetic (sinf : α → α) (rnd : ℕ → α)
    (polygon : List (α × α)) (period : ℕ) (proc : ProcOutcome α)
    (hpoly : 3 ≤ polygon.length) (hfail : acquisitionFails proc) :
    handleAnalyze sinf rnd polygon period true proc =
      .ok (analyzeCore sinf rnd polygon period proc) ∧
    (analyzeCore sinf rnd polygon period proc).dataSource = .synthetic ∧
    (analyzeCore sinf rnd polygon period proc).seriesValues =
      syntheticSeries sinf rnd period := by
  have hhandle : handleAnalyze sinf rnd polygon period true proc =
      .ok (analyzeCore sinf rnd polygon period proc) := by
    unfold handleAnalyze
    rw [if_neg (by omega)]
    rfl
  refine ⟨hhandle, ?_⟩
  cases proc with
  | connError => exact ⟨rfl, rfl⟩
  | nonOk => exact ⟨rfl, rfl⟩
  | payload m =>
    have hfail' : rasterValidValues m = [] := hfail
    constructor
    · simp [analyzeCore, hfail', assemble]
    · simp [analyzeCore, hfail', assemble]

/-- Claim C1 witness: a non-success Process API response on a valid
triangle yields a synthetic-tagged success. -/
theorem imageryFailure_falls_back_to_synthetic_witness :
    3 ≤ ([((0 : ℚ), (0 : ℚ)), (0, 1), (1, 1)] : List (ℚ × ℚ)).length ∧
    acquisitionFails (ProcOutcome.nonOk (α := ℚ)) ∧
    handleAnalyze (fun _ : ℚ => 0) (fun _ : ℕ => 0)
        ([((0 : ℚ), (0 : ℚ)), (0, 1), (1, 1)] : List (ℚ × ℚ)) 2 true .nonOk =
      .ok (analyzeCore (fun _ : ℚ => 0) (fun _ : ℕ => 0)
        ([((0 : ℚ), (0 : ℚ)), (0, 1), (1, 1)] : List (ℚ × ℚ)) 2 .nonOk) ∧
    (analyzeCore (fun _ : ℚ => 0) (fun _ : ℕ => 0)
      ([((0 : ℚ), (0 : ℚ)), (0, 1), (1, 1)] : List (ℚ × ℚ)) 2 .nonOk).dataSource =
      .synthetic := by
  have h := imageryFailure_falls_back_to_synthetic (fun _ : ℚ => 0) (fun _ : ℕ => 0)
    ([((0 : ℚ), (0 : ℚ)), (0, 1), (1, 1)] : List (ℚ × ℚ)) 2 .nonOk (by norm_num) trivial
  exact ⟨by norm_num, trivial, h.1, h.2.1⟩

end Field

end NdviServer
